import Mathlib

/-!
Shallow embedding of the met-earth solar-system scene (src/js/script.js).

Numbers: JS numbers are modelled as exact rationals (`ℚ`) for the mutable
angle state and as reals (`ℝ`) where trigonometry enters (world positions,
orbit-ring vertices).  Object fields that an object literal omits (e.g. the
meteor descriptor has no `distance` field) are modelled as `Option.none`;
the JS comparison `undefined > 0` evaluates to `false`, which `distGtZero`
reproduces.
-/

namespace MetEarth

/-- A catalog entry / per-body `data` object.  Fields absent from the JS
object literal are `none` (resp. `false` for the absent `isAsteroid`). -/
structure BodyData where
  name : String
  radius : Option ℚ := none
  distance : Option ℚ := none
  color : Option ℕ := none
  orbitSpeed : ℚ
  rotationSpeed : ℚ
  emissive : Option ℕ := none
  isAsteroid : Bool := false
deriving DecidableEq, Repr

/-- `{ name: 'Sun', radius: 3.5, distance: 0, color: 0xFFD700, orbitSpeed: 0,
rotationSpeed: 0.005, emissive: 0xFFE040 }`. -/
def sunData : BodyData :=
  { name := "Sun", radius := some 3.5, distance := some 0, color := some 0xFFD700,
    orbitSpeed := 0, rotationSpeed := 0.005, emissive := some 0xFFE040 }

/-- `{ name: 'Earth', radius: 1.0, distance: 11, color: 0x0077FF,
orbitSpeed: 0.018, rotationSpeed: 0.03 }`. -/
def earthData : BodyData :=
  { name := "Earth", radius := some 1.0, distance := some 11, color := some 0x0077FF,
    orbitSpeed := 0.018, rotationSpeed := 0.03 }

/-- The static catalog `solarData`. -/
def solarData : List BodyData := [sunData, earthData]

/-- The meteor's `data` object built inside `createAsteroids`:
`{ name: 'Halley', orbitSpeed: 0.03, rotationSpeed: 0.08, isAsteroid: true }`.
It has no `distance` (and no `radius`/`color`/`emissive`) field. -/
def halleyData : BodyData :=
  { name := "Halley", orbitSpeed := 0.03, rotationSpeed := 0.08, isAsteroid := true }

/-- `const SOLAR_SYSTEM_SCALE = 0.5`. -/
def SOLAR_SYSTEM_SCALE : ℚ := 0.5

/-- The JS guard `data.distance > 0`: comparing the absent field
(`undefined`) with `0` yields `false`. -/
def distGtZero : Option ℚ → Bool
  | some x => decide (0 < x)
  | none => false

/-- A registry entry `{ mesh, orbitGroup, data }`.  Scene nodes are named by
numeric ids: `mesh` identifies the mesh node (carrying the spin angle
`mesh.rotation.y`), `orbitGroup` the pivot group (carrying the revolution
angle `orbitGroup.rotation.y`).  `meshPosX` records the constant
`mesh.position.x` assigned at construction and never written again. -/
structure Body where
  mesh : ℕ
  meshPosX : ℚ
  orbitGroup : ℕ
  data : BodyData
deriving DecidableEq, Repr

/-- `createBody(data)` for the `i`-th catalog entry: a fresh mesh node and a
fresh orbit group (both numbered `i`), with `mesh.position.x = data.distance`. -/
def buildBody (i : ℕ) (d : BodyData) : Body :=
  { mesh := i, meshPosX := d.distance.getD 0, orbitGroup := i, data := d }

/-- The `solarData.forEach(...)` loop: one `Body` per catalog entry, node ids
allocated in order. -/
def catalogBodiesAux : ℕ → List BodyData → List Body
  | _, [] => []
  | i, d :: rest => buildBody i d :: catalogBodiesAux (i + 1) rest

/-- All catalog-derived bodies of a catalog. -/
def catalogBodies (catalog : List BodyData) : List Body :=
  catalogBodiesAux 0 catalog

/-- `planets.find(p => p.data.name === 'Earth')`. -/
def findEarth (ps : List Body) : Option Body :=
  ps.find? fun b => b.data.name == "Earth"

/-- `createAsteroids(earthData)`: the meteor mesh is a fresh node, placed at
`earthData.data.distance + 1.8` on the x-axis and added to Earth's own orbit
group (`earthOrbitGroup`), with descriptor `halleyData`. -/
def createAsteroids (earthB : Body) (freshId : ℕ) : Body :=
  { mesh := freshId, meshPosX := earthB.data.distance.getD 0 + 1.8,
    orbitGroup := earthB.orbitGroup, data := halleyData }

/-- `createSolarSystem()` restricted to the registry it builds: the
catalog-derived bodies, followed by the meteor when a body named `Earth`
exists (otherwise `createAsteroids` is never called). -/
def createSolarSystem (catalog : List BodyData) : List Body :=
  let ps := catalogBodies catalog
  match findEarth ps with
  | some earth => ps ++ [createAsteroids earth ps.length]
  | none => ps

/-- The global `planets` registry after construction from `solarData`. -/
def planets : List Body := createSolarSystem solarData

/-- The Sun's registry entry. -/
def sunBody : Body := buildBody 0 sunData

/-- Earth's registry entry. -/
def earthBody : Body := buildBody 1 earthData

/-- The meteor's registry entry: fresh mesh node 2, sharing Earth's orbit
group (node 1). -/
def halleyBody : Body := createAsteroids earthBody 2

/-- The mutable rotation state of the scene graph: each pivot group's
`rotation.y` and each mesh's `rotation.y`, indexed by node id. -/
structure AnglesState where
  pivotAngle : ℕ → ℚ
  spinAngle : ℕ → ℚ

/-- One iteration of the `planets.forEach(body => ...)` loop body:
`mesh.rotation.y += data.rotationSpeed * delta * 5`, then
`if (data.distance > 0) body.orbitGroup.rotation.y += data.orbitSpeed * delta * 5`. -/
def updateBody (delta : ℚ) (s : AnglesState) (b : Body) : AnglesState :=
  let s1 : AnglesState :=
    { s with spinAngle := (Function.update s.spinAngle b.mesh
        (s.spinAngle b.mesh + b.data.rotationSpeed * delta * 5)) }
  if distGtZero b.data.distance then
    { s1 with pivotAngle := (Function.update s1.pivotAngle b.orbitGroup
        (s1.pivotAngle b.orbitGroup + b.data.orbitSpeed * delta * 5)) }
  else s1

/-- The per-body update pass of `animate()` over an arbitrary registry. -/
def animateAnglesG (ps : List Body) (delta : ℚ) (s : AnglesState) : AnglesState :=
  ps.foldl (updateBody delta) s

/-- The per-body update pass of `animate()` over the constructed registry. -/
def animateAngles (delta : ℚ) (s : AnglesState) : AnglesState :=
  animateAnglesG planets delta s

/-- Repeated driver invocations with the given list of deltas. -/
def ticksAngles (ds : List ℚ) (s : AnglesState) : AnglesState :=
  ds.foldl (fun s d => animateAngles d s) s

/-- The all-zero rotation state. -/
def zeroAngles : AnglesState := ⟨fun _ => 0, fun _ => 0⟩

/-- A point in world/local space. -/
abbrev Vec3 := ℝ × ℝ × ℝ

/-- The engine's rotation about the vertical (y) axis by angle `θ`, as applied
to a child position by a node with `rotation.y = θ`. -/
noncomputable def rotYv (θ : ℝ) (v : Vec3) : Vec3 :=
  (v.1 * Real.cos θ + v.2.2 * Real.sin θ, v.2.1,
   -v.1 * Real.sin θ + v.2.2 * Real.cos θ)

/-- The engine's rotation about the x axis by angle `θ`, as applied to a
local position by a node with `rotation.x = θ`. -/
noncomputable def rotXv (θ : ℝ) (v : Vec3) : Vec3 :=
  (v.1,
   v.2.1 * Real.cos θ - v.2.2 * Real.sin θ,
   v.2.1 * Real.sin θ + v.2.2 * Real.cos θ)

/-- `mesh.getWorldPosition(...)` for a registry body: the mesh's local origin
`(meshPosX, 0, 0)` transformed through its ancestor chain, which is exactly
its orbit group (rotation `pivotAngle orbitGroup` about y, position 0) under
the scene root (identity).  The mesh's own spin never moves its origin. -/
noncomputable def worldPosition (s : AnglesState) (b : Body) : Vec3 :=
  rotYv ((s.pivotAngle b.orbitGroup : ℚ) : ℝ) (((b.meshPosX : ℚ) : ℝ), 0, 0)

/-- An orbit-path line object: its geometry's local vertices (from
`setFromPoints`) and its constant `rotation.x`. -/
structure OrbitLine where
  pts : List Vec3
  rotX : ℝ

/-- The `points` array built for an orbit line of the given radius:
for `i = 0..64`, `angle = (i / segments) * Math.PI * 2` and the point
`(radius * cos(angle), 0, radius * sin(angle))`. -/
noncomputable def ringPointsLocal (radius : ℚ) : List Vec3 :=
  (List.range (64 + 1)).map fun (i : ℕ) =>
    ((radius : ℝ) * Real.cos (((i : ℕ) : ℝ) / 64 * Real.pi * 2), 0,
     (radius : ℝ) * Real.sin (((i : ℕ) : ℝ) / 64 * Real.pi * 2))

/-- The `orbitLine` object: its point list and `orbitLine.rotation.x = Math.PI / 2`. -/
noncomputable def createOrbitLine (radius : ℚ) : OrbitLine :=
  ⟨ringPointsLocal radius, Real.pi / 2⟩

/-- The orbit lines added to the scene root by `createSolarSystem`: one per
catalog entry with `distance > 0`, of radius that entry's `distance`. -/
noncomputable def createOrbitLines (catalog : List BodyData) : List OrbitLine :=
  (catalog.filter fun d => distGtZero d.distance).map fun d =>
    createOrbitLine (d.distance.getD 0)

/-- World-space vertex positions of an orbit line: each local vertex under
the line object's `rotation.x` (its parent is the scene root). -/
noncomputable def ringWorldPts (r : OrbitLine) : List Vec3 :=
  r.pts.map (rotXv r.rotX)

/-- The per-frame mutable state `animate()` touches: the rotation angles,
the camera controls' target point, and (for completeness) the orbit lines,
which `animate()` never writes. -/
structure Frame where
  angles : AnglesState
  target : Vec3
  rings : List OrbitLine

/-- The camera-target block of `animate()`: find the body named `Earth`;
on a hit copy its world position into `controls.target`, on a miss leave
the target untouched. -/
noncomputable def retarget (ps : List Body) (s : AnglesState) (t : Vec3) : Vec3 :=
  match findEarth ps with
  | some e => worldPosition s e
  | none => t

/-- One `animate()` invocation over an arbitrary registry: run the per-body
update pass, then re-target the camera from the updated angles.  Orbit lines
are not written. -/
noncomputable def animateG (ps : List Body) (delta : ℚ) (f : Frame) : Frame :=
  let s := animateAnglesG ps delta f.angles
  { angles := s, target := retarget ps s f.target, rings := f.rings }

/-- One `animate()` invocation over the constructed registry. -/
noncomputable def animate (delta : ℚ) (f : Frame) : Frame :=
  animateG planets delta f

/-- Repeated `animate()` invocations with the given list of deltas. -/
noncomputable def ticksFrame (ds : List ℚ) (f : Frame) : Frame :=
  ds.foldl (fun f d => animate d f) f

/-- The vertex-deformation loop of `createAsteroidMesh(color, size)`,
flattened over the position buffer: the JS loop walks vertices `i` and adds
`(Math.random() - 0.5) * 0.1 * size` to entries `3i`, `3i+1`, `3i+2`, so flat
coordinate `j` of the buffer consumes the `j`-th draw of the random source
`rand`.  `base` is the level-1 icosahedron's position buffer supplied by the
engine (an external primitive, taken as a parameter). -/
def createAsteroidMesh (size : ℚ) (rand : ℕ → ℚ) (base : List ℚ) : List ℚ :=
  (List.range base.length).map fun j =>
    base.getD j 0 + (rand j - 0.5) * 0.1 * size

/-! ## Helper lemmas -/

/-- The constructed registry, spelled out. -/
lemma planets_eq : planets = [sunBody, earthBody, halleyBody] := rfl

/-- One driver pass writes exactly one pivot angle: node 1 (the shared
Sun-centred pivot of Earth and the meteor), by Earth's orbit increment. -/
lemma animateAngles_pivot (d : ℚ) (s : AnglesState) :
    (animateAngles d s).pivotAngle
      = Function.update s.pivotAngle 1 (s.pivotAngle 1 + earthData.orbitSpeed * d * 5) := rfl

/-- Every pivot other than node 1 is untouched by a driver pass. -/
lemma animateAngles_pivot_ne (d : ℚ) (s : AnglesState) (j : ℕ) (hj : j ≠ 1) :
    (animateAngles d s).pivotAngle j = s.pivotAngle j := by
  rw [animateAngles_pivot, Function.update_noteq hj]

/-- Every pivot other than node 1 is untouched by any run of driver passes. -/
lemma ticksAngles_pivot_ne (ds : List ℚ) (s : AnglesState) (j : ℕ) (hj : j ≠ 1) :
    (ticksAngles ds s).pivotAngle j = s.pivotAngle j := by
  induction ds generalizing s with
  | nil => rfl
  | cons d ds ih =>
      show (ticksAngles ds (animateAngles d s)).pivotAngle j = _
      rw [ih (animateAngles d s), animateAngles_pivot_ne d s j hj]

/-- Spin increment of the Sun's mesh (node 0) in one driver pass. -/
lemma animateAngles_spin0 (d : ℚ) (s : AnglesState) :
    (animateAngles d s).spinAngle 0 = s.spinAngle 0 + sunData.rotationSpeed * d * 5 := rfl

/-- Spin increment of Earth's mesh (node 1) in one driver pass. -/
lemma animateAngles_spin1 (d : ℚ) (s : AnglesState) :
    (animateAngles d s).spinAngle 1 = s.spinAngle 1 + earthData.rotationSpeed * d * 5 := rfl

/-- Spin increment of the meteor's mesh (node 2) in one driver pass. -/
lemma animateAngles_spin2 (d : ℚ) (s : AnglesState) :
    (animateAngles d s).spinAngle 2 = s.spinAngle 2 + halleyData.rotationSpeed * d * 5 := rfl

/-- The runtime lookup finds Earth's registry entry. -/
lemma findEarth_planets : findEarth planets = some earthBody := rfl

/-- In a catalog with no entry named `Earth`, the lookup over the
catalog-derived bodies misses, wherever id allocation starts. -/
lemma findEarth_aux_none (i : ℕ) (c : List BodyData)
    (h : ∀ d ∈ c, d.name ≠ "Earth") :
    findEarth (catalogBodiesAux i c) = none := by
  induction c generalizing i with
  | nil => rfl
  | cons d rest ih =>
      rw [catalogBodiesAux, findEarth, List.find?_cons]
      have hd : d.name ≠ "Earth" := h d (List.mem_cons_self d rest)
      have hb : ((buildBody i d).data.name == "Earth") = false := by
        simpa [buildBody] using hd
      rw [hb]
      exact ih (i + 1) fun x hx => h x (List.mem_cons_of_mem d hx)

/-! ## Claims -/

/-- C1, counterexample to the parenthetical: the decorative body's registry
entry is `halleyBody`, and its descriptor does not carry
`orbitalDistance = 0` — the field is absent (`none`) altogether. -/
theorem c1_counterexample :
    planets[2]? = some halleyBody ∧ halleyBody.data.distance ≠ some (0 : ℚ) :=
  ⟨rfl, by decide⟩

/-- C1 (amended): per driver invocation the shared pivot (node of
`earthBody.orbitGroup`, shared with the decorative body) advances exactly
once, by exactly Earth's `orbitSpeed * delta * 5`; the decorative body's own
per-Body orbit update is a no-op on every pivot angle, because its
descriptor carries no `distance` field (`none`, JS `undefined`), so the
`distance > 0` branch is not taken for it. -/
theorem c1_shared_pivot_advances_once (s : AnglesState) (d : ℚ) :
    (animateAngles d s).pivotAngle earthBody.orbitGroup
        = s.pivotAngle earthBody.orbitGroup + earthData.orbitSpeed * d * 5
      ∧ (updateBody d s halleyBody).pivotAngle = s.pivotAngle
      ∧ halleyBody.data.distance = none := by
  refine ⟨?_, rfl, rfl⟩
  rw [animateAngles_pivot]
  exact Function.update_same 1 _ _

/-- C2, evaluation at the failing input: `createSolarSystem` does build one
orbit line per positive-distance entry (here Earth's, radius 11, a
65-point loop generated in the horizontal plane), but it then sets the line
object's `rotation.x = π/2`, so in world space the ring lies in the vertical
x-y plane: its vertex 16 (local angle π/2) sits at `(0, -11, 0)`, whose
y-coordinate `-11` is not `0`. -/
theorem c2_ring_vertex_vertical :
    createOrbitLines solarData = [createOrbitLine (earthData.distance.getD 0)]
      ∧ (ringWorldPts (createOrbitLine (earthData.distance.getD 0)))[16]?
          = some ((0 : ℝ), (-11 : ℝ), (0 : ℝ))
      ∧ ((-11 : ℝ) ≠ 0) := by
  refine ⟨rfl, ?_, by norm_num⟩
  show ((ringPointsLocal 11).map (rotXv (Real.pi / 2)))[16]? = _
  rw [ringPointsLocal, List.map_map, List.getElem?_map,
    List.getElem?_range (by norm_num)]
  have hθ : ((16 : ℕ) : ℝ) / 64 * Real.pi * 2 = Real.pi / 2 := by
    push_cast
    ring
  simp only [Option.map_some', Function.comp, hθ, Real.cos_pi_div_two,
    Real.sin_pi_div_two, rotXv]
  norm_num

/-- C3, counterexample: in the constructed registry two bodies (the Sun and
the decorative body) fail `distance > 0`, and the decorative body is not
attached to a pivot of its own — it shares Earth's. -/
theorem c3_counterexample :
    (planets.filter fun b => !(distGtZero b.data.distance)).length = 2
      ∧ planets[2]? = some halleyBody
      ∧ halleyBody.orbitGroup = earthBody.orbitGroup
      ∧ distGtZero halleyBody.data.distance = false :=
  ⟨by decide, rfl, rfl, rfl⟩

/-- C3 (amended): among the catalog-derived bodies, exactly the central star
has `orbitalDistance = 0`, every other catalog-derived body has a positive
`orbitalDistance` and its own orbit pivot (pivot ids `[0, 1]` are distinct);
the registry additionally holds the synthetic decorative body, whose
descriptor carries no `orbitalDistance` (`none`) and which shares the tracked
planet's pivot instead of having its own. -/
theorem c3_registry_invariant :
    ((catalogBodies solarData).filter fun b =>
        decide (b.data.distance = some (0 : ℚ))).map (fun b => b.data.name) = ["Sun"]
      ∧ ((catalogBodies solarData).all fun b =>
          (b.data.name == "Sun") || distGtZero b.data.distance) = true
      ∧ ((catalogBodies solarData).map fun b => b.orbitGroup) = [0, 1]
      ∧ planets = catalogBodies solarData ++ [halleyBody]
      ∧ halleyBody.data.distance = none
      ∧ halleyBody.orbitGroup = earthBody.orbitGroup :=
  ⟨by decide, by decide, by decide, rfl, rfl, rfl⟩

/-- C4: after any sequence of driver invocations, the decorative body's world
position is the local offset `(11 + 1.8, 0, 0)` (the tracked planet's
orbital distance plus the fixed 1.8 offset) rotated by the shared pivot's
current revolution angle — the very same angle that places Earth at
`(11, 0, 0)` rotated, so the two revolve in lockstep with zero phase
difference regardless of frame timing. -/
theorem c4_decorative_lockstep (s0 : AnglesState) (ds : List ℚ) :
    worldPosition (ticksAngles ds s0) halleyBody
        = rotYv (((ticksAngles ds s0).pivotAngle earthBody.orbitGroup : ℚ) : ℝ)
            (((11 : ℝ) + 1.8), 0, 0)
      ∧ worldPosition (ticksAngles ds s0) earthBody
          = rotYv (((ticksAngles ds s0).pivotAngle earthBody.orbitGroup : ℚ) : ℝ)
              ((11 : ℝ), 0, 0)
      ∧ halleyBody.orbitGroup = earthBody.orbitGroup := by
  refine ⟨?_, ?_, rfl⟩
  · rw [worldPosition]
    norm_num [halleyBody, earthBody, createAsteroids, buildBody, earthData, halleyData]
  · rw [worldPosition]
    norm_num [earthBody, buildBody, earthData]

/-- C5: angle accumulation is linear in elapsed time with the fixed ×5
multiplier — after driver passes with deltas `d1` then `d2`, every body's
spin has grown by `rotationSpeed * 5 * (d1 + d2)` and every positive-distance
body's revolution by `orbitSpeed * 5 * (d1 + d2)`; concretely, one pass with
delta 1 grows Earth's pivot rotation by 0.09 rad and Earth's mesh spin by
0.15 rad, while the Sun's pivot rotation is unchanged. -/
theorem c5_linear_accumulation (s : AnglesState) (d1 d2 : ℚ) :
    (∀ b ∈ planets,
        (animateAngles d2 (animateAngles d1 s)).spinAngle b.mesh
          = s.spinAngle b.mesh + b.data.rotationSpeed * 5 * (d1 + d2))
      ∧ (∀ b ∈ planets, distGtZero b.data.distance = true →
          (animateAngles d2 (animateAngles d1 s)).pivotAngle b.orbitGroup
            = s.pivotAngle b.orbitGroup + b.data.orbitSpeed * 5 * (d1 + d2))
      ∧ (animateAngles 1 s).pivotAngle earthBody.orbitGroup
          = s.pivotAngle earthBody.orbitGroup + 0.09
      ∧ (animateAngles 1 s).spinAngle earthBody.mesh
          = s.spinAngle earthBody.mesh + 0.15
      ∧ (animateAngles 1 s).pivotAngle sunBody.orbitGroup
          = s.pivotAngle sunBody.orbitGroup := by
  refine ⟨?_, ?_, ?_, ?_, ?_⟩
  · intro b hb
    rw [planets_eq] at hb
    simp only [List.mem_cons, List.not_mem_nil, or_false] at hb
    rcases hb with rfl | rfl | rfl
    · show (animateAngles d2 (animateAngles d1 s)).spinAngle 0
          = s.spinAngle 0 + sunData.rotationSpeed * 5 * (d1 + d2)
      rw [animateAngles_spin0, animateAngles_spin0]
      ring
    · show (animateAngles d2 (animateAngles d1 s)).spinAngle 1
          = s.spinAngle 1 + earthData.rotationSpeed * 5 * (d1 + d2)
      rw [animateAngles_spin1, animateAngles_spin1]
      ring
    · show (animateAngles d2 (animateAngles d1 s)).spinAngle 2
          = s.spinAngle 2 + halleyData.rotationSpeed * 5 * (d1 + d2)
      rw [animateAngles_spin2, animateAngles_spin2]
      ring
  · intro b hb hpos
    rw [planets_eq] at hb
    simp only [List.mem_cons, List.not_mem_nil, or_false] at hb
    rcases hb with rfl | rfl | rfl
    · exact absurd hpos (by decide)
    · show (animateAngles d2 (animateAngles d1 s)).pivotAngle 1
          = s.pivotAngle 1 + earthData.orbitSpeed * 5 * (d1 + d2)
      rw [animateAngles_pivot, Function.update_same, animateAngles_pivot,
        Function.update_same]
      ring
    · exact absurd hpos (by decide)
  · rw [animateAngles_pivot]
    have h := Function.update_same (f := s.pivotAngle) 1
      (s.pivotAngle 1 + earthData.orbitSpeed * 1 * 5)
    rw [show earthBody.orbitGroup = 1 from rfl, h]
    norm_num [earthData]
  · rw [show earthBody.mesh = 1 from rfl, animateAngles_spin1]
    norm_num [earthData]
  · exact animateAngles_pivot_ne 1 s sunBody.orbitGroup (by decide)

/-- C5 witness: the spin clause applied to Earth with deltas 1 then 2 from
the zero state. -/
theorem c5_witness :
    (animateAngles 2 (animateAngles 1 zeroAngles)).spinAngle earthBody.mesh
      = zeroAngles.spinAngle earthBody.mesh + earthBody.data.rotationSpeed * 5 * (1 + 2) :=
  (c5_linear_accumulation zeroAngles 1 2).1 earthBody
    (by rw [planets_eq]; exact List.mem_cons_of_mem _ (List.mem_cons_self _ _))

/-- C6: a body whose descriptor has `orbitalDistance = 0` (only the Sun) has
an orbit pivot whose rotation angle never changes across any number of
driver invocations with any non-negative deltas. -/
theorem c6_zero_distance_pivot_static (s : AnglesState) (ds : List ℚ)
    (hds : ∀ d ∈ ds, 0 ≤ d) (b : Body) (hb : b ∈ planets)
    (h0 : b.data.distance = some (0 : ℚ)) :
    (ticksAngles ds s).pivotAngle b.orbitGroup = s.pivotAngle b.orbitGroup := by
  have hbs : b = sunBody := by
    rw [planets_eq] at hb
    simp only [List.mem_cons, List.not_mem_nil, or_false] at hb
    rcases hb with rfl | rfl | rfl
    · rfl
    · exact absurd h0 (by decide)
    · exact absurd h0 (by decide)
  subst hbs
  exact ticksAngles_pivot_ne ds s sunBody.orbitGroup (by decide)

/-- C6 witness: two ticks with deltas 1 and 2 from the zero state leave the
Sun's pivot angle unchanged. -/
theorem c6_witness :
    (ticksAngles [1, 2] zeroAngles).pivotAngle sunBody.orbitGroup
      = zeroAngles.pivotAngle sunBody.orbitGroup :=
  c6_zero_distance_pivot_static zeroAngles [1, 2] (by decide) sunBody
    (by rw [planets_eq]; exact List.mem_cons_self _ _) rfl

/-- C7: every driver invocation ends by setting the camera controls' target
to exactly the tracked planet's world position computed from the angle state
updated this very frame — in particular the pivot angle entering that world
position already includes this frame's `orbitSpeed * delta * 5` increment. -/
theorem c7_camera_targets_earth (f : Frame) (d : ℚ) :
    (animate d f).target = worldPosition (animateAngles d f.angles) earthBody
      ∧ (animateAngles d f.angles).pivotAngle earthBody.orbitGroup
          = f.angles.pivotAngle earthBody.orbitGroup + earthData.orbitSpeed * d * 5 := by
  constructor
  · show retarget planets (animateAnglesG planets d f.angles) f.target = _
    rw [retarget, findEarth_planets]
    rfl
  · rw [animateAngles_pivot]
    exact Function.update_same 1 _ _

/-- C8: the vertex-deformation of the asteroid mesh is a pure function of
(random stream, size, base buffer) — identical streams give an identical
buffer — it preserves the buffer length, each flat coordinate `j` is
displaced by exactly `(rand j - 0.5) * 0.1 * size` independently of the
others, and for a random source ranging in `[0, 1)` and a non-negative size
every displacement lies within `[-0.05 * size, 0.05 * size]`. -/
theorem c8_deformation_determinism_and_range (size : ℚ) (rand rand2 : ℕ → ℚ)
    (base : List ℚ) (hr : ∀ j, 0 ≤ rand j ∧ rand j < 1) (hs : 0 ≤ size)
    (hsame : ∀ j, rand j = rand2 j) :
    createAsteroidMesh size rand base = createAsteroidMesh size rand2 base
      ∧ (createAsteroidMesh size rand base).length = base.length
      ∧ ∀ j, j < base.length →
          (createAsteroidMesh size rand base)[j]?
              = some (base.getD j 0 + (rand j - 0.5) * 0.1 * size)
            ∧ -(0.05 * size) ≤ (rand j - 0.5) * 0.1 * size
            ∧ (rand j - 0.5) * 0.1 * size ≤ 0.05 * size := by
  refine ⟨?_, by simp [createAsteroidMesh], ?_⟩
  · have hfun : (fun j => base.getD j 0 + (rand j - 0.5) * 0.1 * size)
        = fun j => base.getD j 0 + (rand2 j - 0.5) * 0.1 * size := by
      funext j
      rw [hsame j]
    rw [createAsteroidMesh, createAsteroidMesh, hfun]
  · intro j hj
    refine ⟨?_, ?_, ?_⟩
    · rw [createAsteroidMesh, List.getElem?_map, List.getElem?_range hj]
      rfl
    · nlinarith [(hr j).1, (hr j).2, hs]
    · nlinarith [(hr j).1, (hr j).2, hs]

/-- C8 witness: the length clause at a concrete stream, size and base. -/
theorem c8_witness :
    (createAsteroidMesh 2 (fun _ => (1 : ℚ) / 2) [1, 2, 3]).length = 3 :=
  (c8_deformation_determinism_and_range 2 (fun _ => (1 : ℚ) / 2) (fun _ => (1 : ℚ) / 2)
    [1, 2, 3] (fun _ => ⟨by norm_num, by norm_num⟩) (by norm_num) (fun _ => rfl)).2.1

/-- C9: orbit-path lines are static — any run of driver invocations leaves
every ring object (vertex list and transform) untouched, hence also every
ring's world-space vertex positions. -/
theorem c9_orbit_lines_static (f : Frame) (ds : List ℚ) :
    (ticksFrame ds f).rings = f.rings
      ∧ (ticksFrame ds f).rings.map ringWorldPts = f.rings.map ringWorldPts := by
  have h : ∀ g : Frame, (ticksFrame ds g).rings = g.rings := by
    induction ds with
    | nil => intro g; rfl
    | cons d ds ih => intro g; exact ih (animate d g)
  exact ⟨h f, by rw [h f]⟩

/-- C10: for a catalog with no entry named `Earth`, scene construction still
succeeds and yields exactly the catalog-derived bodies (the decorative-body
attachment is silently skipped); each driver invocation then leaves the
camera target untouched (silent no-op on the failed lookup) while the
per-body angle updates and the rings are as usual. -/
theorem c10_missing_earth_noop (catalog : List BodyData)
    (h : ∀ d ∈ catalog, d.name ≠ "Earth") (d : ℚ) (f : Frame) :
    createSolarSystem catalog = catalogBodies catalog
      ∧ (animateG (createSolarSystem catalog) d f).target = f.target
      ∧ (animateG (createSolarSystem catalog) d f).angles
          = animateAnglesG (catalogBodies catalog) d f.angles
      ∧ (animateG (createSolarSystem catalog) d f).rings = f.rings := by
  have hcs : createSolarSystem catalog = catalogBodies catalog := by
    rw [createSolarSystem, catalogBodies, findEarth_aux_none 0 catalog h]
  refine ⟨hcs, ?_, ?_, rfl⟩
  · rw [animateG, hcs]
    show retarget (catalogBodies catalog) _ f.target = f.target
    rw [retarget, catalogBodies, findEarth_aux_none 0 catalog h]
  · rw [hcs]
    rfl

/-- C10 witness: a Sun-only catalog, one tick of delta 1 from a zero frame. -/
theorem c10_witness :
    (animateG (createSolarSystem [sunData]) 1
        { angles := zeroAngles, target := ((0 : ℝ), (0 : ℝ), (0 : ℝ)), rings := [] }).target
      = ((0 : ℝ), (0 : ℝ), (0 : ℝ)) :=
  (c10_missing_earth_noop [sunData] (by decide) 1
    { angles := zeroAngles, target := ((0 : ℝ), (0 : ℝ), (0 : ℝ)), rings := [] }).2.1

end MetEarth
